import Mathlib

/-!
Shallow embedding of the booking lifecycle and authorization engine of the
house_back2 Django backend (src/api/models.py, src/api/serializers.py,
src/api/views.py, src/api/notification_views.py), together with theorems
checking its natural-language specification against the code.

Conventions of the embedding:
- Database rows are records; the database is a record of lists plus the next
  auto-generated primary key for each table.
- A request handler is a function from the acting user (or an anonymous
  requester, an Option) and its input to an Except value: a raised
  PermissionDenied / Http404 / ValidationError becomes an error value, and on
  an error no successor state is produced, matching a request whose
  transaction is not committed.
- Decimal fields (price, amount, deposit) are modelled as integers; DateField
  values as integers.  Model fields that no claim reads (timestamps,
  categories, tags, images) are omitted.
-/

namespace HouseBack

/-- A user row (src/api/models.py, class User).  Only the columns the
booking and notification engine reads are modelled: primary key, email,
user_type and the staff flag. -/
structure User where
  id : Nat
  email : String
  user_type : String
  is_staff : Bool
  deriving DecidableEq

/-- A design row (src/api/models.py, class Design).  designer is the foreign
key to the owning user. -/
structure Design where
  id : Nat
  designer : Nat
  title : String
  description : String
  price : Int
  status : String
  is_premium : Bool
  views : Nat
  likes : Nat
  deriving DecidableEq

/-- A booking row (src/api/models.py, class Booking).  design is nullable
because the foreign key is declared with on_delete=SET_NULL. -/
structure Booking where
  id : Nat
  client : Nat
  designer : Nat
  design : Option Nat
  status : String
  payment_status : String
  amount : Int
  deposit : Int
  start_date : Int
  end_date : Option Int
  address : String
  city : String
  state : String
  country : String
  postal_code : String
  notes : String
  deriving DecidableEq

/-- A notification row (src/api/models.py, class Notification). -/
structure Notification where
  id : Nat
  user : Nat
  notification_type : String
  message : String
  is_read : Bool
  related_id : Option Nat
  deriving DecidableEq

/-- The relational store, with one auto-increment counter per table the
engine inserts into. -/
structure ApiState where
  designs : List Design
  bookings : List Booking
  notifications : List Notification
  nextDesignId : Nat
  nextBookingId : Nat
  nextNotificationId : Nat
  deriving DecidableEq

/-- The error kinds a request can surface: Http404, PermissionDenied (403),
serializer/validator errors (400), and an uncaught exception (500). -/
inductive ApiError where
  | notFound
  | permissionDenied (detail : String)
  | validationError (detail : String)
  | serverError
  deriving DecidableEq

/-- Tests whether a request result is a 403 PermissionDenied outcome. -/
def isPermissionDeniedResult {α : Type} : Except ApiError α → Bool
  | .error (.permissionDenied _) => true
  | _ => false

/-- The state a request leaves behind: the new state on success, the
untouched input state when the request errored. -/
def applyResult {α : Type} (st : ApiState) : Except ApiError (ApiState × α) → ApiState
  | .ok (st2, _) => st2
  | .error _ => st

/-- Primary-key lookup on the designs table. -/
def lookupDesign (st : ApiState) (pk : Nat) : Option Design :=
  st.designs.find? (fun d => d.id == pk)

/-- Notification.objects.create: inserts an unread notification row with the
next auto key (used by BookingViewSet.perform_create and confirm). -/
def Notification.create (st : ApiState) (uid : Nat) (ty msg : String) (rel : Option Nat) :
    ApiState × Notification :=
  let n : Notification :=
    { id := st.nextNotificationId, user := uid, notification_type := ty,
      message := msg, is_read := false, related_id := rel }
  ({ st with notifications := st.notifications ++ [n],
             nextNotificationId := st.nextNotificationId + 1 }, n)

/-- Modelled from the spec: the Django settings module (and with it the
transaction configuration of the project, such as ATOMIC_REQUESTS) is not
among the source files, so the coupling between a notification insert and its
enclosing booking mutation follows sections 4.3 and 5 of the spec: both run
in one unit of work, and a failing insert aborts the whole unit with nothing
committed.  The emitOk flag models whether the insert succeeds. -/
def Notification.insert (emitOk : Bool) (st : ApiState) (uid : Nat) (ty msg : String)
    (rel : Option Nat) : Except ApiError (ApiState × Notification) :=
  if emitOk then .ok (Notification.create st uid ty msg rel) else .error .serverError

/-- Truth table of Python str.isdigit on the ASCII query strings this
endpoint receives: non-empty and all characters decimal digits (written over
the character list of the string). -/
def isdigit (s : String) : Bool :=
  !s.data.isEmpty && s.data.all Char.isDigit

/-- Decimal parse of a digit string, the meaning of Python int() on the
strings isdigit accepts. -/
def strToNat (s : String) : Nat :=
  s.data.foldl (fun acc c => acc * 10 + (c.toNat - 48)) 0

/-- The role-dependent tail of DesignViewSet.get_queryset (src/api/views.py
lines 78 to 87): staff see everything, an authenticated non-staff user sees
approved designs plus their own, an anonymous requester sees only approved
designs. -/
def DesignViewSet.roleQueryset (user : Option User) (qs : List Design) : List Design :=
  match user with
  | some u =>
      if u.is_staff then qs
      else qs.filter (fun d => d.status == "approved" || d.designer == u.id)
  | none => qs.filter (fun d => d.status == "approved")

/-- DesignViewSet.get_queryset (src/api/views.py lines 61 to 87).  The
requester is an Option User (none = anonymous); designerFilter is the raw
designer query parameter when present. -/
def DesignViewSet.get_queryset (user : Option User) (designerFilter : Option String)
    (st : ApiState) : List Design :=
  let qs := st.designs
  match designerFilter with
  | some f =>
      if f = "me" then
        match user with
        | none => []
        | some u => qs.filter (fun d => d.designer == u.id)
      else if isdigit f then
        qs.filter (fun d => d.designer == strToNat f)
      else
        DesignViewSet.roleQueryset user qs
  | none => DesignViewSet.roleQueryset user qs

/-- The writable fields of DesignSerializer a caller may post.  The status
field is writable on the serializer (it is not in read_only_fields), so the
input carries it. -/
structure DesignInput where
  title : String
  description : String
  price : Int
  status : Option String
  is_premium : Bool
  deriving DecidableEq

/-- DesignSerializer.create with the save keyword arguments merged in, as
serializer.save(designer=..., status=...) does: designer and status come
from the keyword arguments and override anything in validated_data. -/
def DesignSerializer.createDesign (u : User) (inp : DesignInput) (statusKw : String)
    (st : ApiState) : ApiState × Design :=
  let d : Design :=
    { id := st.nextDesignId, designer := u.id, title := inp.title,
      description := inp.description, price := inp.price, status := statusKw,
      is_premium := inp.is_premium, views := 0, likes := 0 }
  ({ st with designs := st.designs ++ [d], nextDesignId := st.nextDesignId + 1 }, d)

/-- DesignViewSet.perform_create (src/api/views.py lines 89 to 90): always
saves with designer=request.user and status=pending, so the caller-supplied
status in the input is overridden. -/
def DesignViewSet.perform_create (u : User) (inp : DesignInput) (st : ApiState) :
    ApiState × Design :=
  DesignSerializer.createDesign u inp "pending" st

/-- BookingViewSet.get_queryset (src/api/views.py lines 159 to 165): staff
see all bookings, everyone else the bookings where they are the client or
the designer. -/
def BookingViewSet.get_queryset (u : User) (st : ApiState) : List Booking :=
  if u.is_staff then st.bookings
  else st.bookings.filter (fun b => b.client == u.id || b.designer == u.id)

/-- The get_object step of a detail action on BookingViewSet: primary-key
lookup inside the requester-scoped queryset; a miss surfaces as Http404. -/
def BookingViewSet.get_object (u : User) (st : ApiState) (pk : Nat) : Option Booking :=
  (BookingViewSet.get_queryset u st).find? (fun b => b.id == pk)

/-- The writable fields of BookingSerializer a caller may post.  status and
payment_status are read-only on the serializer, yet the input carries them to
record that whatever the caller sends there is ignored. -/
structure BookingInput where
  design_id : Nat
  amount : Option Int
  deposit : Option Int
  status : Option String
  payment_status : Option String
  start_date : Int
  end_date : Option Int
  address : String
  city : String
  state : String
  country : String
  postal_code : String
  notes : String
  deriving DecidableEq

/-- The field-level checks DRF runs before BookingSerializer.create.  The
amount model field has no default and is neither null nor blank, so the
generated serializer field is required: an omitted, null or blank amount is
rejected with a 400 before create runs.  deposit has model default 0 and is
therefore optional.  Both fields carry MinValueValidator(0), checked on
supplied values. -/
def BookingSerializer.validInput (inp : BookingInput) : Bool :=
  (match inp.amount with | some a => decide (0 ≤ a) | none => false) &&
  (match inp.deposit with | some d => decide (0 ≤ d) | none => true)

/-- The booking row BookingSerializer.create builds (src/api/serializers.py
lines 110 to 129): client is the requesting user, designer is copied from
the design, amount defaults to the design price when omitted or blank,
deposit defaults to 0, and both statuses are forced to pending, overwriting
anything the caller sent. -/
def BookingSerializer.newBooking (u : User) (inp : BookingInput) (design : Design)
    (bid : Nat) : Booking :=
  { id := bid, client := u.id, designer := design.designer, design := some design.id,
    status := "pending", payment_status := "pending",
    amount := inp.amount.getD design.price, deposit := inp.deposit.getD 0,
    start_date := inp.start_date, end_date := inp.end_date,
    address := inp.address, city := inp.city, state := inp.state,
    country := inp.country, postal_code := inp.postal_code, notes := inp.notes }

/-- BookingSerializer validation plus create: run the generated field checks
(under which amount is required, so the design.price defaulting branch of
newBooking is dead code through this endpoint), resolve design_id against
the designs table (PrimaryKeyRelatedField), then insert the new booking row.
The single validationError detail abstracts the per-field 400 messages DRF
reports. -/
def BookingSerializer.create (u : User) (inp : BookingInput) (st : ApiState) :
    Except ApiError (ApiState × Booking) :=
  if BookingSerializer.validInput inp = false then
    .error (.validationError "Invalid amount or deposit.")
  else
    match lookupDesign st inp.design_id with
    | none => .error (.validationError "Invalid pk - object does not exist.")
    | some design =>
        let b := BookingSerializer.newBooking u inp design st.nextBookingId
        .ok ({ st with bookings := st.bookings ++ [b],
                       nextBookingId := st.nextBookingId + 1 }, b)

/-- BookingViewSet.perform_create (src/api/views.py lines 167 to 175) with
the fallibility of the notification insert exposed: save the booking, then
create the booking_request notification for the designer; a failing insert
aborts the whole unit. -/
def BookingViewSet.perform_createTx (emitOk : Bool) (u : User) (inp : BookingInput)
    (st : ApiState) : Except ApiError (ApiState × Booking) :=
  match BookingSerializer.create u inp st with
  | .error e => .error e
  | .ok (st2, booking) =>
      match booking.design.bind (lookupDesign st2) with
      | none => .error .serverError
      | some design =>
          let msg := "New booking request for \x27" ++ design.title ++ "\x27 from " ++ u.email
          match Notification.insert emitOk st2 booking.designer "booking_request" msg
              (some booking.id) with
          | .error e => .error e
          | .ok (st3, _) => .ok (st3, booking)

/-- BookingViewSet.perform_create on the ordinary path where the insert
succeeds. -/
def BookingViewSet.perform_create (u : User) (inp : BookingInput) (st : ApiState) :
    Except ApiError (ApiState × Booking) :=
  BookingViewSet.perform_createTx true u inp st

/-- BookingViewSet.confirm (src/api/views.py lines 177 to 190) with the
fallibility of the notification insert exposed: fetch the booking through the
scoped queryset, check that the actor is the assigned designer or staff, set
status to confirmed (update_fields limits the write to the status column),
then create the booking_confirmed notification for the client.  The design
title read for the message goes through the design foreign key; a null or
dangling reference surfaces as an uncaught exception. -/
def BookingViewSet.confirmTx (emitOk : Bool) (u : User) (pk : Nat) (st : ApiState) :
    Except ApiError (ApiState × String) :=
  match BookingViewSet.get_object u st pk with
  | none => .error .notFound
  | some booking =>
      if booking.designer ≠ u.id ∧ u.is_staff = false then
        .error (.permissionDenied "Only the assigned designer can confirm this booking.")
      else
        let bookings2 := st.bookings.map
          (fun b => if b.id == booking.id then { b with status := "confirmed" } else b)
        match booking.design.bind (lookupDesign st) with
        | none => .error .serverError
        | some design =>
            let msg := "Your booking for \x27" ++ design.title ++ "\x27 was confirmed."
            match Notification.insert emitOk { st with bookings := bookings2 }
                booking.client "booking_confirmed" msg (some booking.id) with
            | .error e => .error e
            | .ok (st3, _) => .ok (st3, "booking confirmed")

/-- BookingViewSet.confirm on the ordinary path where the insert succeeds. -/
def BookingViewSet.confirm (u : User) (pk : Nat) (st : ApiState) :
    Except ApiError (ApiState × String) :=
  BookingViewSet.confirmTx true u pk st

/-- BookingViewSet.cancel (src/api/views.py lines 192 to 199): fetch the
booking through the scoped queryset, check that the actor is the client, the
designer or staff, set status to cancelled.  No notification is created. -/
def BookingViewSet.cancel (u : User) (pk : Nat) (st : ApiState) :
    Except ApiError (ApiState × String) :=
  match BookingViewSet.get_object u st pk with
  | none => .error .notFound
  | some booking =>
      if booking.client ≠ u.id ∧ booking.designer ≠ u.id ∧ u.is_staff = false then
        .error (.permissionDenied "Not allowed to cancel this booking.")
      else
        let bookings2 := st.bookings.map
          (fun b => if b.id == booking.id then { b with status := "cancelled" } else b)
        .ok ({ st with bookings := bookings2 }, "booking cancelled")

/-- NotificationViewSet.get_queryset (src/api/notification_views.py lines 57
to 59): users only ever see their own notifications. -/
def NotificationViewSet.get_queryset (u : User) (st : ApiState) : List Notification :=
  st.notifications.filter (fun n => n.user == u.id)

/-- The get_object step of a detail action on NotificationViewSet. -/
def NotificationViewSet.get_object (u : User) (st : ApiState) (pk : Nat) :
    Option Notification :=
  (NotificationViewSet.get_queryset u st).find? (fun n => n.id == pk)

/-- NotificationViewSet.mark_read (src/api/notification_views.py lines 81 to
97): fetch the notification through the owner-scoped queryset, answer 403
when the owner differs from the caller, otherwise set is_read and save the
full row. -/
def NotificationViewSet.mark_read (u : User) (pk : Nat) (st : ApiState) :
    Except ApiError (ApiState × String) :=
  match NotificationViewSet.get_object u st pk with
  | none => .error .notFound
  | some n =>
      if n.user ≠ u.id then
        .error (.permissionDenied "You can only mark your own notifications as read.")
      else
        let n2 := { n with is_read := true }
        let notifs2 := st.notifications.map (fun x => if x.id == n.id then n2 else x)
        .ok ({ st with notifications := notifs2 }, "notification marked as read")

/-- NotificationViewSet.mark_all_read (src/api/notification_views.py lines
119 to 140): a bulk update of the unread notifications owned by the caller;
a zero row count answers 400, otherwise the count is reported. -/
def NotificationViewSet.mark_all_read (u : User) (st : ApiState) :
    Except ApiError (ApiState × Nat) :=
  let notifs2 := st.notifications.map
    (fun n => if n.user == u.id && n.is_read == false then { n with is_read := true } else n)
  let updated := (st.notifications.filter (fun n => n.user == u.id && n.is_read == false)).length
  if updated = 0 then
    .error (.validationError "no unread notifications found")
  else
    .ok ({ st with notifications := notifs2 }, updated)

/-- Every Booking column other than status, for frame theorems. -/
structure BookingFrame where
  id : Nat
  client : Nat
  designer : Nat
  design : Option Nat
  payment_status : String
  amount : Int
  deposit : Int
  start_date : Int
  end_date : Option Int
  address : String
  city : String
  state : String
  country : String
  postal_code : String
  notes : String
  deriving DecidableEq

/-- Projects a booking row onto every column except status. -/
def Booking.frame (b : Booking) : BookingFrame :=
  { id := b.id, client := b.client, designer := b.designer, design := b.design,
    payment_status := b.payment_status, amount := b.amount, deposit := b.deposit,
    start_date := b.start_date, end_date := b.end_date, address := b.address,
    city := b.city, state := b.state, country := b.country,
    postal_code := b.postal_code, notes := b.notes }

/-- Count of booking_confirmed notifications held by a user about a given
related id. -/
def confirmedNotifCount (st : ApiState) (uid rel : Nat) : Nat :=
  (st.notifications.filter (fun n =>
    n.user == uid && n.notification_type == "booking_confirmed" && n.related_id == some rel)).length

/-- The notification row a successful confirm inserts. -/
def confirmedNotif (st : ApiState) (b : Booking) (d : Design) : Notification :=
  { id := st.nextNotificationId, user := b.client,
    notification_type := "booking_confirmed",
    message := "Your booking for \x27" ++ d.title ++ "\x27 was confirmed.",
    is_read := false, related_id := some b.id }

/-- The state a successful confirm leaves behind: the status column of the
booking row switched to confirmed and one booking_confirmed notification
appended for the client. -/
def confirmedState (st : ApiState) (b : Booking) (d : Design) : ApiState :=
  { st with
    bookings := st.bookings.map
      (fun x => if x.id == b.id then { x with status := "confirmed" } else x),
    notifications := st.notifications ++ [confirmedNotif st b d],
    nextNotificationId := st.nextNotificationId + 1 }

/-- The state a successful cancel leaves behind: only the status column of
the booking row switched to cancelled. -/
def cancelledState (st : ApiState) (b : Booking) : ApiState :=
  { st with
    bookings := st.bookings.map
      (fun x => if x.id == b.id then { x with status := "cancelled" } else x) }

/-! Concrete rows used by witnesses and counterexamples. -/

/-- A designer account. -/
def uDesigner : User := { id := 1, email := "dee@example.com", user_type := "designer", is_staff := false }

/-- A client account. -/
def uClient : User := { id := 2, email := "cee@example.com", user_type := "client", is_staff := false }

/-- A staff account. -/
def uStaff : User := { id := 3, email := "ess@example.com", user_type := "client", is_staff := true }

/-- An authenticated account unrelated to any booking below. -/
def uOther : User := { id := 4, email := "oh@example.com", user_type := "client", is_staff := false }

/-- An approved design owned by uDesigner. -/
def dSample : Design :=
  { id := 10, designer := 1, title := "Modern Living Room", description := "d",
    price := 1000, status := "approved", is_premium := false, views := 0, likes := 0 }

/-- A design still pending review, owned by uDesigner. -/
def dPending : Design :=
  { id := 12, designer := 1, title := "Unreviewed Kitchen", description := "d",
    price := 500, status := "pending", is_premium := false, views := 0, likes := 0 }

/-- A pending booking of dSample by uClient. -/
def bSample : Booking :=
  { id := 20, client := 2, designer := 1, design := some 10, status := "pending",
    payment_status := "pending", amount := 1000, deposit := 0, start_date := 0,
    end_date := none, address := "a", city := "c", state := "s", country := "x",
    postal_code := "p", notes := "" }

/-- The same booking already confirmed. -/
def bConfirmed : Booking := { bSample with status := "confirmed" }

/-- A store with one approved design and one pending booking. -/
def stSample : ApiState :=
  { designs := [dSample], bookings := [bSample], notifications := [],
    nextDesignId := 11, nextBookingId := 21, nextNotificationId := 1 }

/-- A store whose only design is pending review. -/
def stVis : ApiState :=
  { designs := [dPending], bookings := [], notifications := [],
    nextDesignId := 13, nextBookingId := 1, nextNotificationId := 1 }

/-- A store holding an already-confirmed booking and the booking_confirmed
notification its first confirmation produced. -/
def stConfirmed : ApiState :=
  { designs := [dSample], bookings := [bConfirmed],
    notifications := [{ id := 0, user := 2, notification_type := "booking_confirmed",
                        message := "m", is_read := false, related_id := some 20 }],
    nextDesignId := 11, nextBookingId := 21, nextNotificationId := 1 }

/-- An unread notification owned by uClient. -/
def nUnread : Notification :=
  { id := 1, user := 2, notification_type := "booking_request", message := "m",
    is_read := false, related_id := some 20 }

/-- A notification owned by uClient, out of reach for everyone else. -/
def nForeign : Notification :=
  { id := 5, user := 2, notification_type := "booking_request", message := "m",
    is_read := false, related_id := some 20 }

/-- A store with one unread notification owned by uClient. -/
def stUnread : ApiState :=
  { designs := [], bookings := [], notifications := [nUnread],
    nextDesignId := 1, nextBookingId := 1, nextNotificationId := 2 }

/-- A store with one notification owned by uClient only. -/
def stForeign : ApiState :=
  { designs := [], bookings := [], notifications := [nForeign],
    nextDesignId := 1, nextBookingId := 1, nextNotificationId := 6 }

/-- The booking input a witness posts: no amount, no deposit, and
caller-supplied status values that must be ignored. -/
def inpSample : BookingInput :=
  { design_id := 10, amount := none, deposit := none, status := some "completed",
    payment_status := some "paid", start_date := 0, end_date := none, address := "a",
    city := "c", state := "s", country := "x", postal_code := "p", notes := "" }

/-- The same posted booking with an explicit amount, passing the required
check. -/
def inpAmount : BookingInput := { inpSample with amount := some 800 }

/-- The state a successful booking create leaves behind: the new row appended
and one booking_request notification for the designer. -/
def createdState (u : User) (inp : BookingInput) (design : Design) (st : ApiState) : ApiState :=
  { st with
    bookings := st.bookings ++ [BookingSerializer.newBooking u inp design st.nextBookingId],
    nextBookingId := st.nextBookingId + 1,
    notifications := st.notifications ++
      [{ id := st.nextNotificationId, user := design.designer,
         notification_type := "booking_request",
         message := "New booking request for \x27" ++ design.title ++ "\x27 from " ++ u.email,
         is_read := false, related_id := some st.nextBookingId }],
    nextNotificationId := st.nextNotificationId + 1 }

/-- The state mark_all_read leaves behind: every unread notification owned
by the caller switched to read. -/
def markedAllState (u : User) (st : ApiState) : ApiState :=
  { st with
    notifications := st.notifications.map
      (fun n => if n.user == u.id && n.is_read == false then { n with is_read := true } else n) }

/-! Helper lemmas about primary-key lookups in lists with no duplicate keys. -/

theorem find_key_of_nodup {α : Type} (key : α → Nat) {l : List α} {a : α}
    (hnd : (l.map key).Nodup) (ha : a ∈ l) :
    l.find? (fun x => key x == key a) = some a := by
  induction l with
  | nil => cases ha
  | cons hd tl ih =>
      rw [List.map_cons, List.nodup_cons] at hnd
      rcases List.mem_cons.mp ha with rfl | hmem
      · exact List.find?_cons_of_pos tl (by simp)
      · have hne : key hd ≠ key a := fun he =>
          hnd.1 (he ▸ List.mem_map_of_mem key hmem)
        rw [List.find?_cons_of_neg tl (by simpa using hne)]
        exact ih hnd.2 hmem

theorem key_inj_of_nodup {α : Type} (key : α → Nat) {l : List α} {a b : α}
    (hnd : (l.map key).Nodup) (ha : a ∈ l) (hb : b ∈ l) (hk : key a = key b) : a = b :=
  List.inj_on_of_nodup_map hnd ha hb hk

/-! Helper lemmas about BookingViewSet.get_object. -/

theorem booking_get_object_some (u : User) {st : ApiState} {b : Booking}
    (hnd : (st.bookings.map Booking.id).Nodup) (hb : b ∈ st.bookings)
    (hvis : u.is_staff = true ∨ b.client = u.id ∨ b.designer = u.id) :
    BookingViewSet.get_object u st b.id = some b := by
  unfold BookingViewSet.get_object BookingViewSet.get_queryset
  rcases hstaff : u.is_staff with _ | _
  · rw [if_neg (by simp [hstaff])]
    have hmemf : b ∈ st.bookings.filter (fun x => x.client == u.id || x.designer == u.id) := by
      rcases hvis with h | h | h
      · rw [hstaff] at h; cases h
      · exact List.mem_filter.mpr ⟨hb, by simp [h]⟩
      · exact List.mem_filter.mpr ⟨hb, by simp [h]⟩
    have hndf : ((st.bookings.filter (fun x => x.client == u.id || x.designer == u.id)).map
        Booking.id).Nodup :=
      hnd.sublist ((List.filter_sublist st.bookings).map Booking.id)
    exact find_key_of_nodup Booking.id hndf hmemf
  · rw [if_pos (by simp [hstaff])]
    exact find_key_of_nodup Booking.id hnd hb

theorem booking_get_object_none (u : User) {st : ApiState} {b : Booking}
    (hnd : (st.bookings.map Booking.id).Nodup) (hb : b ∈ st.bookings)
    (hstaff : u.is_staff = false) (hc : b.client ≠ u.id) (hd : b.designer ≠ u.id) :
    BookingViewSet.get_object u st b.id = none := by
  unfold BookingViewSet.get_object BookingViewSet.get_queryset
  rw [if_neg (by simp [hstaff])]
  rw [List.find?_eq_none]
  intro x hx hid
  have hxmem := (List.mem_filter.mp hx).1
  have hxcond := (List.mem_filter.mp hx).2
  have hxb : x = b := key_inj_of_nodup Booking.id hnd hxmem hb (by simpa using hid)
  subst hxb
  simp only [Bool.or_eq_true, beq_iff_eq] at hxcond
  rcases hxcond with h | h
  · exact hc h
  · exact hd h

theorem confirm_ok_spec (u : User) (st : ApiState) (b : Booking) (d : Design)
    (hnd : (st.bookings.map Booking.id).Nodup) (hb : b ∈ st.bookings)
    (hperm : b.designer = u.id ∨ u.is_staff = true)
    (hdes : b.design.bind (lookupDesign st) = some d) :
    BookingViewSet.confirm u b.id st = .ok (confirmedState st b d, "booking confirmed") := by
  have hobj : BookingViewSet.get_object u st b.id = some b :=
    booking_get_object_some u hnd hb (by tauto)
  unfold BookingViewSet.confirm BookingViewSet.confirmTx
  rw [hobj]
  dsimp only
  have hcond : ¬ (b.designer ≠ u.id ∧ u.is_staff = false) := by
    rcases hperm with h | h
    · exact fun hc => hc.1 h
    · exact fun hc => by rw [h] at hc; exact absurd hc.2 (by simp)
  rw [if_neg hcond]
  simp only [hdes, Notification.insert, Notification.create, if_pos]
  rfl

theorem cancel_ok_spec (u : User) (st : ApiState) (b : Booking)
    (hnd : (st.bookings.map Booking.id).Nodup) (hb : b ∈ st.bookings)
    (hperm : b.client = u.id ∨ b.designer = u.id ∨ u.is_staff = true) :
    BookingViewSet.cancel u b.id st = .ok (cancelledState st b, "booking cancelled") := by
  have hobj : BookingViewSet.get_object u st b.id = some b :=
    booking_get_object_some u hnd hb (by tauto)
  unfold BookingViewSet.cancel
  rw [hobj]
  dsimp only
  have hcond : ¬ (b.client ≠ u.id ∧ b.designer ≠ u.id ∧ u.is_staff = false) := by
    rcases hperm with h | h | h
    · exact fun hc => hc.1 h
    · exact fun hc => hc.2.1 h
    · exact fun hc => by rw [h] at hc; exact absurd hc.2.2 (by simp)
  rw [if_neg hcond]
  rfl

/-- Every booking row with the given id carries the given status after the
status-only update a confirm or cancel performs. -/
theorem status_updated (l : List Booking) (bid : Nat) (s : String) :
    ∀ x ∈ l.map (fun y => if y.id == bid then { y with status := s } else y),
      x.id = bid → x.status = s := by
  intro x hx hid
  rcases List.mem_map.mp hx with ⟨y, _, rfl⟩
  by_cases h : y.id = bid
  · simp [h]
  · simp only [beq_iff_eq, if_neg h] at hid ⊢
    exact absurd hid h

/-- The status-only update leaves every other booking column unchanged. -/
theorem frame_of_status_update (l : List Booking) (bid : Nat) (s : String) :
    ((l.map (fun y => if y.id == bid then { y with status := s } else y)).map Booking.frame) =
      l.map Booking.frame := by
  rw [List.map_map]
  apply List.map_congr_left
  intro a _
  by_cases h : a.id = bid <;> simp [Booking.frame, h]

/-- C1 counterexample to the claim as stated: the concrete scenario of a
client posting a booking for an approved design with amount omitted does not
produce a booking whose amount is defaulted to the design price; the
serializer marks amount required (the model field has no default and is
neither null nor blank), so the request fails with a ValidationError and
creates nothing. -/
theorem create_omitted_amount_rejected :
    inpSample.amount = none ∧
    BookingViewSet.perform_create uClient inpSample stSample =
      Except.error (ApiError.validationError "Invalid amount or deposit.") ∧
    applyResult stSample (BookingViewSet.perform_create uClient inpSample stSample) =
      stSample :=
  ⟨rfl, rfl, rfl⟩

/-- C1 (amended): amount is required on create: a request with amount
omitted or blank fails with ValidationError and creates nothing, so the
design.price defaulting branch of the serializer is dead code through this
endpoint.  Every booking that is created (amount supplied and the input
valid) copies designer from design.designer, uses the supplied amount,
defaults deposit to 0 when omitted, starts with status pending and
payment_status pending regardless of the caller-supplied status and
payment_status carried by the input, and appends exactly one booking_request
notification for the designer whose related_id is the new booking id. -/
theorem create_booking_spec (u : User) (inp : BookingInput) (st : ApiState) (design : Design)
    (hdes : lookupDesign st inp.design_id = some design) :
    (inp.amount = none →
      BookingViewSet.perform_create u inp st =
        .error (.validationError "Invalid amount or deposit.") ∧
      applyResult st (BookingViewSet.perform_create u inp st) = st) ∧
    (BookingSerializer.validInput inp = true →
      BookingViewSet.perform_create u inp st =
        .ok (createdState u inp design st,
             BookingSerializer.newBooking u inp design st.nextBookingId) ∧
      (BookingSerializer.newBooking u inp design st.nextBookingId).designer = design.designer ∧
      (BookingSerializer.newBooking u inp design st.nextBookingId).client = u.id ∧
      (∀ a : Int, inp.amount = some a →
        (BookingSerializer.newBooking u inp design st.nextBookingId).amount = a) ∧
      (inp.deposit = none →
        (BookingSerializer.newBooking u inp design st.nextBookingId).deposit = 0) ∧
      (BookingSerializer.newBooking u inp design st.nextBookingId).status = "pending" ∧
      (BookingSerializer.newBooking u inp design st.nextBookingId).payment_status = "pending" ∧
      (createdState u inp design st).notifications =
        st.notifications ++
          [{ id := st.nextNotificationId, user := design.designer,
             notification_type := "booking_request",
             message := "New booking request for \x27" ++ design.title ++
               "\x27 from " ++ u.email,
             is_read := false,
             related_id := some (BookingSerializer.newBooking u inp design
               st.nextBookingId).id }]) := by
  constructor
  · intro hA
    have hv : BookingSerializer.validInput inp = false := by
      unfold BookingSerializer.validInput
      rw [hA]
      rfl
    have heq : BookingViewSet.perform_create u inp st =
        .error (.validationError "Invalid amount or deposit.") := by
      unfold BookingViewSet.perform_create BookingViewSet.perform_createTx
        BookingSerializer.create
      rw [if_pos hv]
    exact ⟨heq, by rw [heq]; rfl⟩
  · intro hval
    refine ⟨?_, rfl, rfl, ?_, fun h => by simp [BookingSerializer.newBooking, h],
            rfl, rfl, rfl⟩
    · have hid : design.id = inp.design_id := by simpa using List.find?_some hdes
      unfold BookingViewSet.perform_create BookingViewSet.perform_createTx
        BookingSerializer.create
      rw [if_neg (by simp [hval]), hdes]
      dsimp only
      have hlook :
          lookupDesign
            { st with
              bookings := st.bookings ++
                [BookingSerializer.newBooking u inp design st.nextBookingId],
              nextBookingId := st.nextBookingId + 1 } design.id = some design := by
        unfold lookupDesign at hdes ⊢
        dsimp only
        rw [hid]
        exact hdes
      simp only [BookingSerializer.newBooking, Option.bind] at hlook ⊢
      rw [hlook]
      simp only [Notification.insert, Notification.create, if_pos]
      rfl
    · intro a ha
      simp [BookingSerializer.newBooking, ha]

/-- C1 witness: with an explicit amount the create succeeds and the theorem
applies at the sample store. -/
theorem create_booking_spec_witness :
    (BookingViewSet.perform_create uClient inpAmount stSample).isOk = true := by
  have h := (create_booking_spec uClient inpAmount stSample dSample (by decide)).2 (by decide)
  rw [h.1]
  rfl

/-- C2 counterexample to the claim as stated: an authenticated actor who is
neither the client, the designer nor staff does not receive a
PermissionError from confirm; the scoped queryset hides the booking and the
request fails with a NotFound outcome instead. -/
theorem confirm_unrelated_not_found :
    BookingViewSet.confirm uOther 20 stSample = Except.error ApiError.notFound ∧
    isPermissionDeniedResult (BookingViewSet.confirm uOther 20 stSample) = false :=
  ⟨rfl, rfl⟩

/-- C2 (amended): confirm succeeds exactly for the assigned designer and for
staff, setting the status to confirmed and appending one booking_confirmed
notification for the client with related_id the booking id; the client of
the booking is refused with PermissionError; an actor outside the set that
can see the booking fails with NotFound; in every failure case the state is
unchanged. -/
theorem confirm_authorization (u : User) (st : ApiState) (b : Booking) (d : Design)
    (hnd : (st.bookings.map Booking.id).Nodup) (hb : b ∈ st.bookings)
    (hdes : b.design.bind (lookupDesign st) = some d) :
    ((b.designer = u.id ∨ u.is_staff = true) →
      BookingViewSet.confirm u b.id st = .ok (confirmedState st b d, "booking confirmed") ∧
      (∀ x ∈ (confirmedState st b d).bookings, x.id = b.id → x.status = "confirmed") ∧
      (confirmedState st b d).notifications = st.notifications ++ [confirmedNotif st b d] ∧
      (confirmedNotif st b d).user = b.client ∧
      (confirmedNotif st b d).notification_type = "booking_confirmed" ∧
      (confirmedNotif st b d).related_id = some b.id) ∧
    (b.client = u.id → b.designer ≠ u.id → u.is_staff = false →
      BookingViewSet.confirm u b.id st =
        .error (.permissionDenied "Only the assigned designer can confirm this booking.") ∧
      applyResult st (BookingViewSet.confirm u b.id st) = st) ∧
    (b.client ≠ u.id → b.designer ≠ u.id → u.is_staff = false →
      BookingViewSet.confirm u b.id st = .error .notFound ∧
      applyResult st (BookingViewSet.confirm u b.id st) = st) := by
  refine ⟨?_, ?_, ?_⟩
  · intro hperm
    exact ⟨confirm_ok_spec u st b d hnd hb hperm hdes,
           status_updated st.bookings b.id "confirmed", rfl, rfl, rfl, rfl⟩
  · intro hc hd2 hs
    have hobj : BookingViewSet.get_object u st b.id = some b :=
      booking_get_object_some u hnd hb (Or.inr (Or.inl hc))
    have heq : BookingViewSet.confirm u b.id st =
        .error (.permissionDenied "Only the assigned designer can confirm this booking.") := by
      unfold BookingViewSet.confirm BookingViewSet.confirmTx
      rw [hobj]
      dsimp only
      rw [if_pos ⟨hd2, hs⟩]
    exact ⟨heq, by rw [heq]; rfl⟩
  · intro hc hd2 hs
    have hobj : BookingViewSet.get_object u st b.id = none :=
      booking_get_object_none u hnd hb hs hc hd2
    have heq : BookingViewSet.confirm u b.id st = .error .notFound := by
      unfold BookingViewSet.confirm BookingViewSet.confirmTx
      rw [hobj]
    exact ⟨heq, by rw [heq]; rfl⟩

/-- C2 witness: the assigned designer confirms the pending sample booking. -/
theorem confirm_authorization_witness :
    BookingViewSet.confirm uDesigner 20 stSample =
      Except.ok (confirmedState stSample bSample dSample, "booking confirmed") :=
  ((confirm_authorization uDesigner stSample bSample dSample (by decide) (by decide)
    (by decide)).1 (Or.inl rfl)).1

/-- C4 counterexample to the claim as stated: an authenticated actor who is
neither the client, the designer nor staff does not receive a
PermissionError from cancel; the scoped queryset hides the booking and the
request fails with a NotFound outcome instead. -/
theorem cancel_unrelated_not_found :
    BookingViewSet.cancel uOther 20 stSample = Except.error ApiError.notFound ∧
    isPermissionDeniedResult (BookingViewSet.cancel uOther 20 stSample) = false :=
  ⟨rfl, rfl⟩

/-- C4 (amended): cancel by the client, the designer or staff succeeds,
changes the status of the booking to cancelled and emits no notification; an
authenticated actor who is none of these cannot see the booking and fails
with NotFound, leaving the state unchanged. -/
theorem cancel_authorization (u : User) (st : ApiState) (b : Booking)
    (hnd : (st.bookings.map Booking.id).Nodup) (hb : b ∈ st.bookings) :
    ((b.client = u.id ∨ b.designer = u.id ∨ u.is_staff = true) →
      BookingViewSet.cancel u b.id st = .ok (cancelledState st b, "booking cancelled") ∧
      (∀ x ∈ (cancelledState st b).bookings, x.id = b.id → x.status = "cancelled") ∧
      (cancelledState st b).notifications = st.notifications) ∧
    (b.client ≠ u.id → b.designer ≠ u.id → u.is_staff = false →
      BookingViewSet.cancel u b.id st = .error .notFound ∧
      applyResult st (BookingViewSet.cancel u b.id st) = st) := by
  constructor
  · intro hperm
    exact ⟨cancel_ok_spec u st b hnd hb hperm,
           status_updated st.bookings b.id "cancelled", rfl⟩
  · intro hc hd hs
    have hobj : BookingViewSet.get_object u st b.id = none :=
      booking_get_object_none u hnd hb hs hc hd
    have heq : BookingViewSet.cancel u b.id st = .error .notFound := by
      unfold BookingViewSet.cancel
      rw [hobj]
    exact ⟨heq, by rw [heq]; rfl⟩

/-- C4 witness: the client cancels the pending sample booking. -/
theorem cancel_authorization_witness :
    BookingViewSet.cancel uClient 20 stSample =
      Except.ok (cancelledState stSample bSample, "booking cancelled") :=
  ((cancel_authorization uClient stSample bSample (by decide) (by decide)).1
    (Or.inl rfl)).1

/-- C6: confirm carries no idempotence guard: on a booking already confirmed
or cancelled, confirm by the designer or staff still succeeds, sets the
status to confirmed, and appends one more booking_confirmed notification for
the client about this booking, duplicating the earlier one. -/
theorem confirm_not_idempotent (u : User) (st : ApiState) (b : Booking) (d : Design)
    (hnd : (st.bookings.map Booking.id).Nodup) (hb : b ∈ st.bookings)
    (hdes : b.design.bind (lookupDesign st) = some d)
    (_hstatus : b.status = "confirmed" ∨ b.status = "cancelled")
    (hperm : b.designer = u.id ∨ u.is_staff = true) :
    BookingViewSet.confirm u b.id st = .ok (confirmedState st b d, "booking confirmed") ∧
    confirmedNotifCount (confirmedState st b d) b.client b.id =
      confirmedNotifCount st b.client b.id + 1 := by
  refine ⟨confirm_ok_spec u st b d hnd hb hperm hdes, ?_⟩
  unfold confirmedNotifCount confirmedState confirmedNotif
  dsimp only
  rw [List.filter_append]
  simp

/-- C6 witness: confirming the already-confirmed sample booking a second
time leaves two booking_confirmed notifications for the client. -/
theorem confirm_not_idempotent_witness :
    confirmedNotifCount (confirmedState stConfirmed bConfirmed dSample)
      bConfirmed.client bConfirmed.id = 2 := by
  have h := confirm_not_idempotent uDesigner stConfirmed bConfirmed dSample
    (by decide) (by decide) (by decide) (Or.inl rfl) (Or.inl rfl)
  rw [h.2]
  decide

/-- C9: every design created through the public creation path has status
pending immediately after creation, regardless of the caller-supplied status
carried by the input, and the created row is stored as built. -/
theorem design_create_status_pending (u : User) (inp : DesignInput) (st : ApiState) :
    (DesignViewSet.perform_create u inp st).2.status = "pending" ∧
    (DesignViewSet.perform_create u inp st).1.designs =
      st.designs ++ [(DesignViewSet.perform_create u inp st).2] :=
  ⟨rfl, rfl⟩

/-- C10: a successful confirm or cancel changes only the status column of
booking rows: the projection of every stored booking onto every other column
is unchanged. -/
theorem confirm_cancel_frame (u : User) (pk : Nat) (st st2 st3 : ApiState) (r r2 : String) :
    (BookingViewSet.confirm u pk st = .ok (st2, r) →
      st2.bookings.map Booking.frame = st.bookings.map Booking.frame) ∧
    (BookingViewSet.cancel u pk st = .ok (st3, r2) →
      st3.bookings.map Booking.frame = st.bookings.map Booking.frame) := by
  constructor
  · intro h
    unfold BookingViewSet.confirm BookingViewSet.confirmTx at h
    cases hobj : BookingViewSet.get_object u st pk with
    | none => rw [hobj] at h; simp at h
    | some bk =>
        rw [hobj] at h
        dsimp only at h
        by_cases hC : bk.designer ≠ u.id ∧ u.is_staff = false
        · rw [if_pos hC] at h; simp at h
        · rw [if_neg hC] at h
          cases hdd : bk.design.bind (lookupDesign st) with
          | none => rw [hdd] at h; simp at h
          | some dd =>
              rw [hdd] at h
              simp only [Notification.insert, Notification.create, if_pos,
                         Except.ok.injEq, Prod.mk.injEq] at h
              obtain ⟨h1, -⟩ := h
              rw [← h1]
              exact frame_of_status_update st.bookings bk.id "confirmed"
  · intro h
    unfold BookingViewSet.cancel at h
    cases hobj : BookingViewSet.get_object u st pk with
    | none => rw [hobj] at h; simp at h
    | some bk =>
        rw [hobj] at h
        dsimp only at h
        by_cases hC : bk.client ≠ u.id ∧ bk.designer ≠ u.id ∧ u.is_staff = false
        · rw [if_pos hC] at h; simp at h
        · rw [if_neg hC] at h
          simp only [Except.ok.injEq, Prod.mk.injEq] at h
          obtain ⟨h1, -⟩ := h
          rw [← h1]
          exact frame_of_status_update st.bookings bk.id "cancelled"

/-- C10 witness: the state after the designer confirms the sample booking
agrees with the prior state on every booking column except status. -/
theorem confirm_cancel_frame_witness :
    (confirmedState stSample bSample dSample).bookings.map Booking.frame =
      stSample.bookings.map Booking.frame :=
  (confirm_cancel_frame uDesigner 20 stSample (confirmedState stSample bSample dSample)
    stSample "booking confirmed" "booking cancelled").1 rfl

/-- C3 counterexample to the claim as stated: a numeric designer filter
bypasses the status union entirely.  An anonymous listing with designer=1
returns the pending design, which the unfiltered anonymous listing hides. -/
theorem design_digit_filter_bypass :
    DesignViewSet.get_queryset none (some "1") stVis = [dPending] ∧
    DesignViewSet.get_queryset none none stVis = [] ∧
    dPending.status ≠ "approved" :=
  ⟨rfl, rfl, by decide⟩

/-- C3 (amended): with no designer filter the listing is role-scoped: staff
see every design, an authenticated non-staff requester sees exactly the
union of approved and own designs, an anonymous requester sees only approved
designs.  The designer=me filter narrows within the role-scoped set and
yields an empty result (not an error) for an anonymous requester.  A numeric
designer filter, however, returns every design of that designer regardless
of status for every requester, bypassing the status union. -/
theorem design_list_visibility (u : User) (r : Option User) (st : ApiState) (s : String) :
    (DesignViewSet.get_queryset none none st =
      st.designs.filter (fun d => d.status == "approved")) ∧
    (u.is_staff = true → DesignViewSet.get_queryset (some u) none st = st.designs) ∧
    (u.is_staff = false → DesignViewSet.get_queryset (some u) none st =
      st.designs.filter (fun d => d.status == "approved" || d.designer == u.id)) ∧
    (DesignViewSet.get_queryset none (some "me") st = []) ∧
    (DesignViewSet.get_queryset (some u) (some "me") st =
      st.designs.filter (fun d => d.designer == u.id)) ∧
    (∀ d ∈ DesignViewSet.get_queryset (some u) (some "me") st,
      d ∈ DesignViewSet.get_queryset (some u) none st) ∧
    (isdigit s = true →
      DesignViewSet.get_queryset r (some s) st =
        st.designs.filter (fun d => d.designer == strToNat s)) := by
  refine ⟨rfl, ?_, ?_, rfl, rfl, ?_, ?_⟩
  · intro hs
    simp [DesignViewSet.get_queryset, DesignViewSet.roleQueryset, hs]
  · intro hs
    simp [DesignViewSet.get_queryset, DesignViewSet.roleQueryset, hs]
  · intro d hd
    rw [show DesignViewSet.get_queryset (some u) (some "me") st =
          st.designs.filter (fun x => x.designer == u.id) from rfl] at hd
    obtain ⟨hmem, hdes⟩ := List.mem_filter.mp hd
    unfold DesignViewSet.get_queryset DesignViewSet.roleQueryset
    dsimp only
    by_cases hs : u.is_staff
    · rw [if_pos hs]; exact hmem
    · rw [if_neg hs]
      exact List.mem_filter.mpr ⟨hmem, by simp [hdes]⟩
  · intro hs
    have hsm : s ≠ "me" := by
      intro he; rw [he] at hs; exact absurd hs (by decide)
    unfold DesignViewSet.get_queryset
    dsimp only
    rw [if_neg hsm, if_pos hs]

/-- C3 witness: the staff listing of the pending-only store is unfiltered. -/
theorem design_list_visibility_witness :
    DesignViewSet.get_queryset (some uStaff) none stVis = stVis.designs :=
  (design_list_visibility uStaff none stVis "1").2.1 rfl

/-! Helper lemmas for the bulk read-state update. -/

theorem markAll_owned_read (uid : Nat) (l : List Notification) :
    ((l.map (fun n => if n.user == uid && n.is_read == false
        then { n with is_read := true } else n)).filter
      (fun n => n.user == uid)).all (fun n => n.is_read) = true := by
  rw [List.all_eq_true]
  intro x hx
  obtain ⟨hxm, hxu⟩ := List.mem_filter.mp hx
  obtain ⟨y, _, rfl⟩ := List.mem_map.mp hxm
  by_cases h1 : y.user = uid
  · by_cases h2 : y.is_read = true
    · simp [h1, h2]
    · simp [h1, h2]
  · have hcond : (y.user == uid && y.is_read == false) = false := by simp [h1]
    rw [hcond] at hxu
    simp only [Bool.false_eq_true, if_false, beq_iff_eq] at hxu
    exact absurd hxu h1

theorem markAll_others (uid : Nat) (l : List Notification) :
    (l.map (fun n => if n.user == uid && n.is_read == false
        then { n with is_read := true } else n)).filter
      (fun n => !(n.user == uid)) =
    l.filter (fun n => !(n.user == uid)) := by
  rw [List.filter_map]
  have h1 : l.filter ((fun n => !(n.user == uid)) ∘
      (fun n => if n.user == uid && n.is_read == false
        then { n with is_read := true } else n)) =
      l.filter (fun n => !(n.user == uid)) := by
    apply List.filter_congr
    intro x _
    by_cases h : x.user = uid
    · by_cases h2 : x.is_read = true <;> simp [h, h2]
    · simp [h]
  rw [h1]
  conv_rhs => rw [← List.map_id (l.filter (fun n => !(n.user == uid)))]
  apply List.map_congr_left
  intro x hx
  have hxu : ¬ x.user = uid := by simpa using (List.mem_filter.mp hx).2
  simp [hxu]

/-- C7: mark_all_read with zero unread notifications owned by the caller
answers the 400-style zero-count failure, not success; with some unread
notifications it succeeds, the reported count equals their number, every
notification owned by the caller ends up read, and notifications owned by
other users are untouched. -/
theorem mark_all_read_spec (u : User) (st : ApiState) :
    ((st.notifications.filter (fun n => n.user == u.id && n.is_read == false)).length = 0 →
      NotificationViewSet.mark_all_read u st =
        .error (.validationError "no unread notifications found")) ∧
    (0 < (st.notifications.filter (fun n => n.user == u.id && n.is_read == false)).length →
      NotificationViewSet.mark_all_read u st =
        .ok (markedAllState u st,
          (st.notifications.filter (fun n => n.user == u.id && n.is_read == false)).length) ∧
      ((markedAllState u st).notifications.filter (fun n => n.user == u.id)).all
        (fun n => n.is_read) = true ∧
      (markedAllState u st).notifications.filter (fun n => !(n.user == u.id)) =
        st.notifications.filter (fun n => !(n.user == u.id)) ∧
      (markedAllState u st).notifications.length = st.notifications.length) := by
  constructor
  · intro h0
    unfold NotificationViewSet.mark_all_read
    dsimp only
    rw [if_pos h0]
  · intro hpos
    have hne := Nat.pos_iff_ne_zero.mp hpos
    refine ⟨?_, markAll_owned_read u.id st.notifications,
            markAll_others u.id st.notifications, by simp [markedAllState]⟩
    unfold NotificationViewSet.mark_all_read
    dsimp only
    rw [if_neg hne]
    rfl

/-- C7 witness: with exactly one unread notification, mark_all_read reports
a count of one. -/
theorem mark_all_read_spec_witness :
    NotificationViewSet.mark_all_read uClient stUnread =
      Except.ok (markedAllState uClient stUnread, 1) :=
  ((mark_all_read_spec uClient stUnread).2 (by decide)).1

/-- C8 counterexample to the claim as stated: a caller invoking mark_read on
a notification owned by someone else does not receive a PermissionError; the
owner-scoped queryset hides the notification and the request fails with a
NotFound outcome instead. -/
theorem mark_read_other_owner_not_found :
    NotificationViewSet.mark_read uDesigner 5 stForeign = Except.error ApiError.notFound ∧
    isPermissionDeniedResult (NotificationViewSet.mark_read uDesigner 5 stForeign) = false :=
  ⟨rfl, rfl⟩

/-- C8 (amended): mark_read on a notification owned by the caller succeeds
and sets is_read to true; on a notification owned by anyone else the
owner-scoped queryset hides it and the request fails with NotFound, leaving
the state unchanged. -/
theorem mark_read_spec (u : User) (st : ApiState) (n : Notification)
    (hnd : (st.notifications.map Notification.id).Nodup) (hn : n ∈ st.notifications) :
    (n.user = u.id →
      NotificationViewSet.mark_read u n.id st =
        .ok ({ st with
               notifications := st.notifications.map
                 (fun x => if x.id == n.id then { n with is_read := true } else x) },
             "notification marked as read") ∧
      (∀ x ∈ st.notifications.map
          (fun x => if x.id == n.id then { n with is_read := true } else x),
        x.id = n.id → x.is_read = true)) ∧
    (n.user ≠ u.id →
      NotificationViewSet.mark_read u n.id st = .error .notFound ∧
      applyResult st (NotificationViewSet.mark_read u n.id st) = st) := by
  constructor
  · intro hu
    have hmemf : n ∈ st.notifications.filter (fun x => x.user == u.id) :=
      List.mem_filter.mpr ⟨hn, by simp [hu]⟩
    have hndf : ((st.notifications.filter (fun x => x.user == u.id)).map
        Notification.id).Nodup :=
      hnd.sublist ((List.filter_sublist st.notifications).map Notification.id)
    have hobj : NotificationViewSet.get_object u st n.id = some n :=
      find_key_of_nodup Notification.id hndf hmemf
    constructor
    · unfold NotificationViewSet.mark_read
      rw [hobj]
      dsimp only
      rw [if_neg (fun hne => hne hu)]
    · intro x hx hid
      rcases List.mem_map.mp hx with ⟨y, _, rfl⟩
      by_cases hyid : y.id = n.id
      · simp [hyid]
      · simp only [beq_iff_eq, if_neg hyid] at hid ⊢
        exact absurd hid hyid
  · intro hu
    have hobj : NotificationViewSet.get_object u st n.id = none := by
      unfold NotificationViewSet.get_object NotificationViewSet.get_queryset
      rw [List.find?_eq_none]
      intro x hx hxid
      have hxmem := (List.mem_filter.mp hx).1
      have hxcond := (List.mem_filter.mp hx).2
      have hxn : x = n :=
        key_inj_of_nodup Notification.id hnd hxmem hn (by simpa using hxid)
      subst hxn
      simp only [beq_iff_eq] at hxcond
      exact hu hxcond
    have heq : NotificationViewSet.mark_read u n.id st = .error .notFound := by
      unfold NotificationViewSet.mark_read
      rw [hobj]
    exact ⟨heq, by rw [heq]; rfl⟩

/-- C8 witness: the owner marks their own unread notification as read. -/
theorem mark_read_spec_witness :
    (NotificationViewSet.mark_read uClient nUnread.id stUnread).isOk = true := by
  have h := ((mark_read_spec uClient stUnread nUnread (by decide) (by decide)).1 rfl).1
  rw [h]
  rfl

/-- Structure of a successful BookingSerializer.create result: the new row
is appended to the bookings table and nothing else changes. -/
theorem create_ok_inv (u : User) (inp : BookingInput) (st stc : ApiState) (bc : Booking)
    (h : BookingSerializer.create u inp st = .ok (stc, bc)) :
    stc.bookings = st.bookings ++ [bc] ∧ stc.notifications = st.notifications ∧
    stc.nextNotificationId = st.nextNotificationId := by
  unfold BookingSerializer.create at h
  by_cases hv : BookingSerializer.validInput inp = false
  · rw [if_pos hv] at h; simp at h
  · rw [if_neg hv] at h
    cases hlk : lookupDesign st inp.design_id with
    | none => rw [hlk] at h; simp at h
    | some design =>
        rw [hlk] at h
        dsimp only at h
        simp only [Except.ok.injEq, Prod.mk.injEq] at h
        obtain ⟨h1, h2⟩ := h
        subst h2
        rw [← h1]
        exact ⟨rfl, rfl, rfl⟩

/-- C5: a booking mutation and its notification emission form one atomic
unit.  When the notification insert fails, neither create nor confirm
produces a successful result, so no state with the booking change and
without the notification is ever committed; every successful result carries
the state change and exactly one appended notification together. -/
theorem booking_mutation_atomic (emitOk : Bool) (u : User) (inp : BookingInput) (pk : Nat)
    (st : ApiState) :
    (emitOk = false →
      (∀ st2 b, BookingViewSet.perform_createTx emitOk u inp st ≠ .ok (st2, b)) ∧
      (∀ st2 r, BookingViewSet.confirmTx emitOk u pk st ≠ .ok (st2, r))) ∧
    (∀ st2 b, BookingViewSet.perform_createTx emitOk u inp st = .ok (st2, b) →
      st2.bookings = st.bookings ++ [b] ∧
      ∃ n : Notification, st2.notifications = st.notifications ++ [n] ∧
        n.notification_type = "booking_request" ∧ n.related_id = some b.id) ∧
    (∀ st2 r, BookingViewSet.confirmTx emitOk u pk st = .ok (st2, r) →
      ∃ bk : Booking, BookingViewSet.get_object u st pk = some bk ∧
        st2.bookings = st.bookings.map
          (fun x => if x.id == bk.id then { x with status := "confirmed" } else x) ∧
        ∃ n : Notification, st2.notifications = st.notifications ++ [n] ∧
          n.notification_type = "booking_confirmed" ∧ n.related_id = some bk.id) := by
  refine ⟨?_, ?_, ?_⟩
  · rintro rfl
    constructor
    · intro st2 b h
      unfold BookingViewSet.perform_createTx at h
      cases hcr : BookingSerializer.create u inp st with
      | error e => rw [hcr] at h; simp at h
      | ok p =>
          obtain ⟨stc, bc⟩ := p
          rw [hcr] at h
          dsimp only at h
          cases hdd : bc.design.bind (lookupDesign stc) with
          | none => rw [hdd] at h; simp at h
          | some dd => rw [hdd] at h; simp [Notification.insert] at h
    · intro st2 r h
      unfold BookingViewSet.confirmTx at h
      cases hobj : BookingViewSet.get_object u st pk with
      | none => rw [hobj] at h; simp at h
      | some bk =>
          rw [hobj] at h
          dsimp only at h
          by_cases hC : bk.designer ≠ u.id ∧ u.is_staff = false
          · rw [if_pos hC] at h; simp at h
          · rw [if_neg hC] at h
            cases hdd : bk.design.bind (lookupDesign st) with
            | none => rw [hdd] at h; simp at h
            | some dd => rw [hdd] at h; simp [Notification.insert] at h
  · intro st2 b h
    unfold BookingViewSet.perform_createTx at h
    cases hcr : BookingSerializer.create u inp st with
    | error e => rw [hcr] at h; simp at h
    | ok p =>
        obtain ⟨stc, bc⟩ := p
        have hinv := create_ok_inv u inp st stc bc hcr
        rw [hcr] at h
        dsimp only at h
        cases hdd : bc.design.bind (lookupDesign stc) with
        | none => rw [hdd] at h; simp at h
        | some dd =>
            rw [hdd] at h
            cases emitOk with
            | false => simp [Notification.insert] at h
            | true =>
                simp only [Notification.insert, Notification.create, if_pos,
                           Except.ok.injEq, Prod.mk.injEq] at h
                obtain ⟨h1, h2⟩ := h
                subst h2
                rw [← h1]
                dsimp only
                refine ⟨hinv.1,
                  ⟨{ id := stc.nextNotificationId, user := bc.designer,
                     notification_type := "booking_request",
                     message := "New booking request for \x27" ++ dd.title ++
                       "\x27 from " ++ u.email,
                     is_read := false, related_id := some bc.id }, ?_, rfl, rfl⟩⟩
                rw [hinv.2.1]
  · intro st2 r h
    unfold BookingViewSet.confirmTx at h
    cases hobj : BookingViewSet.get_object u st pk with
    | none => rw [hobj] at h; simp at h
    | some bk =>
        rw [hobj] at h
        dsimp only at h
        by_cases hC : bk.designer ≠ u.id ∧ u.is_staff = false
        · rw [if_pos hC] at h; simp at h
        · rw [if_neg hC] at h
          cases hdd : bk.design.bind (lookupDesign st) with
          | none => rw [hdd] at h; simp at h
          | some dd =>
              rw [hdd] at h
              cases emitOk with
              | false => simp [Notification.insert] at h
              | true =>
                  simp only [Notification.insert, Notification.create, if_pos,
                             Except.ok.injEq, Prod.mk.injEq] at h
                  obtain ⟨h1, -⟩ := h
                  rw [← h1]
                  exact ⟨bk, rfl, rfl,
                    ⟨{ id := st.nextNotificationId, user := bk.client,
                       notification_type := "booking_confirmed",
                       message := "Your booking for \x27" ++ dd.title ++
                         "\x27 was confirmed.",
                       is_read := false, related_id := some bk.id }, rfl, rfl, rfl⟩⟩

/-- C5 witness: with a failing notification insert, creating the sample
booking produces no successful result at all. -/
theorem booking_mutation_atomic_witness :
    BookingViewSet.perform_createTx false uClient inpAmount stSample ≠
      Except.ok (stSample, bSample) :=
  ((booking_mutation_atomic false uClient inpAmount 20 stSample).1 rfl).1 stSample bSample

end HouseBack
